import Mathlib

/-!
Verification of the poc-open-telemetry pipeline.

The repository has three Python services:
* `src/services/chat-service/app/main.py` — FastAPI gateway: `POST /chat`
  publishes a job to RabbitMQ and then calls the NLP service; `GET /chat-stream`
  emits five fixed chunks.
* `src/services/nlp-service/app/main.py` — `POST /classify` calls a downstream
  analyze endpoint and buckets the result by its `length` field.
* `src/services/worker/app/main.py` — RabbitMQ consumer: normalizes message
  headers, extracts the trace context, calls the analyze endpoint, and acks or
  nacks the delivery.

The shallow embedding below translates the handler bodies into pure Lean
functions.  External collaborators (the OpenTelemetry propagator, the HTTP
client's network outcome, `json.loads`) are either modelled from the spec
(propagator, span creation) or passed in as explicit parameters so that the
theorems quantify over every behaviour the environment can exhibit.  Python
exceptions are modelled with `Except`: a `.error` value at the top level of a
handler means the corresponding Python code raises.
-/

namespace PocOtel

/-- Python exception kinds that the embedded code can raise.  Each constructor
stands for the exception class raised at the corresponding point of the
source. -/
inductive PyErr where
  | unicodeDecodeError
  | jsonError (msg : String)
  | typeError (msg : String)
  | valueError (msg : String)
  | attributeError (msg : String)
  | httpError (msg : String)
  | generic (msg : String)
deriving DecidableEq, Repr

/-- Python runtime values that can appear as RabbitMQ header keys or values
once pika has deserialized an AMQP field table: strings, byte strings
(`bytes`/`bytearray`), integers, booleans and `None`.  `bytes` is a list of
byte values. -/
inductive PyVal where
  | str (s : String)
  | bytes (bs : List Nat)
  | int (n : Int)
  | bool (b : Bool)
  | none
deriving DecidableEq, Repr

/-- JSON values (as produced by `json.loads` / consumed by `json.dumps`).
Numbers are restricted to integers, which is all the pipeline exchanges. -/
inductive JVal where
  | null
  | bool (b : Bool)
  | int (n : Int)
  | str (s : String)
  | arr (xs : List JVal)
  | obj (kvs : List (String × JVal))
deriving Repr

/-- Hex digit character for a value below 16 (lowercase, as used both by the
W3C traceparent format and by Python's `\uXXXX` JSON escapes). -/
def hexDigitChar (d : Nat) : Char :=
  if d < 10 then Char.ofNat (48 + d) else Char.ofNat (87 + d)

/-- Value of a lowercase hex digit character. -/
def hexVal (ch : Char) : Nat :=
  if ch.toNat ≤ 57 then ch.toNat - 48 else ch.toNat - 87

/-- Recognizer for the characters hexDigitChar can produce: `0`-`9`, `a`-`f`. -/
def isHexDigit (ch : Char) : Bool :=
  (48 ≤ ch.toNat && ch.toNat ≤ 57) || (97 ≤ ch.toNat && ch.toNat ≤ 102)

/-- Big-endian hex digits of `n` (no leading zeros except for `n = 0`). -/
def hexEncode (n : Nat) : List Char :=
  if _h : n < 16 then [hexDigitChar n]
  else hexEncode (n / 16) ++ [hexDigitChar (n % 16)]
decreasing_by exact Nat.div_lt_self (by omega) (by omega)

/-- Hex digits of `n` left-padded with `0` to width `w`. -/
def hexPad (w n : Nat) : List Char :=
  List.replicate (w - (hexEncode n).length) '0' ++ hexEncode n

/-- Numeric value of a big-endian hex digit string, accumulator form. -/
def hexValAux (a : Nat) (l : List Char) : Nat :=
  l.foldl (fun acc ch => acc * 16 + hexVal ch) a

/-- Numeric value of a big-endian hex digit string. -/
def hexValList (l : List Char) : Nat := hexValAux 0 l

/-- UTF-8 continuation byte test (`0x80`-`0xBF`). -/
def isCont (b : Nat) : Bool := 128 ≤ b && b < 192

/-- Strict UTF-8 decoder on byte lists, returning the code points, or `none`
at the first malformed sequence.  This is the behaviour of Python's
`bytes.decode()` with the default strict error handler: overlong encodings,
surrogates and out-of-range sequences are rejected. -/
def utf8DecodeStrictAux : List Nat → Option (List Nat)
  | [] => some []
  | b :: rest =>
    if b < 128 then (utf8DecodeStrictAux rest).map (b :: ·)
    else if 194 ≤ b && b ≤ 223 then
      match rest with
      | c1 :: r =>
        if isCont c1 then
          (utf8DecodeStrictAux r).map (((b - 192) * 64 + (c1 - 128)) :: ·)
        else Option.none
      | [] => Option.none
    else if b = 224 then
      match rest with
      | c1 :: c2 :: r =>
        if (160 ≤ c1 && c1 < 192) && isCont c2 then
          (utf8DecodeStrictAux r).map (((c1 - 128) * 64 + (c2 - 128)) :: ·)
        else Option.none
      | _ => Option.none
    else if (225 ≤ b && b ≤ 236) || (238 ≤ b && b ≤ 239) then
      match rest with
      | c1 :: c2 :: r =>
        if isCont c1 && isCont c2 then
          (utf8DecodeStrictAux r).map
            ((((b - 224) * 64 + (c1 - 128)) * 64 + (c2 - 128)) :: ·)
        else Option.none
      | _ => Option.none
    else if b = 237 then
      match rest with
      | c1 :: c2 :: r =>
        if (128 ≤ c1 && c1 < 160) && isCont c2 then
          (utf8DecodeStrictAux r).map
            ((((b - 224) * 64 + (c1 - 128)) * 64 + (c2 - 128)) :: ·)
        else Option.none
      | _ => Option.none
    else if b = 240 then
      match rest with
      | c1 :: c2 :: c3 :: r =>
        if ((144 ≤ c1 && c1 < 192) && isCont c2) && isCont c3 then
          (utf8DecodeStrictAux r).map
            (((((c1 - 128) * 64 + (c2 - 128)) * 64 + (c3 - 128))) :: ·)
        else Option.none
      | _ => Option.none
    else if 241 ≤ b && b ≤ 243 then
      match rest with
      | c1 :: c2 :: c3 :: r =>
        if (isCont c1 && isCont c2) && isCont c3 then
          (utf8DecodeStrictAux r).map
            ((((((b - 240) * 64 + (c1 - 128)) * 64 + (c2 - 128)) * 64 + (c3 - 128))) :: ·)
        else Option.none
      | _ => Option.none
    else if b = 244 then
      match rest with
      | c1 :: c2 :: c3 :: r =>
        if ((128 ≤ c1 && c1 < 144) && isCont c2) && isCont c3 then
          (utf8DecodeStrictAux r).map
            ((((((b - 240) * 64 + (c1 - 128)) * 64 + (c2 - 128)) * 64 + (c3 - 128))) :: ·)
        else Option.none
      | _ => Option.none
    else Option.none

/-- Strict UTF-8 decode to a string (`bytes.decode()` in Python): `none`
models a raised `UnicodeDecodeError`. -/
def utf8DecodeStrict (bs : List Nat) : Option String :=
  (utf8DecodeStrictAux bs).map fun cps => String.mk (cps.map Char.ofNat)

/-- UTF-8 decoder matching Python's `errors="ignore"` handler: a malformed
byte is skipped and decoding continues at the next byte.  The first argument
is recursion fuel; every step consumes at least one byte, so fuel equal to the
byte count (as supplied by `utf8DecodeIgnore`) is always sufficient. -/
def utf8DecodeIgnoreAux : Nat → List Nat → List Nat
  | 0, _ => []
  | _ + 1, [] => []
  | fuel + 1, b :: rest =>
    if b < 128 then b :: utf8DecodeIgnoreAux fuel rest
    else if 194 ≤ b && b ≤ 223 then
      match rest with
      | c1 :: r =>
        if isCont c1 then ((b - 192) * 64 + (c1 - 128)) :: utf8DecodeIgnoreAux fuel r
        else utf8DecodeIgnoreAux fuel rest
      | [] => []
    else if b = 224 then
      match rest with
      | c1 :: c2 :: r =>
        if (160 ≤ c1 && c1 < 192) && isCont c2 then
          ((c1 - 128) * 64 + (c2 - 128)) :: utf8DecodeIgnoreAux fuel r
        else utf8DecodeIgnoreAux fuel rest
      | _ => utf8DecodeIgnoreAux fuel rest
    else if (225 ≤ b && b ≤ 236) || (238 ≤ b && b ≤ 239) then
      match rest with
      | c1 :: c2 :: r =>
        if isCont c1 && isCont c2 then
          (((b - 224) * 64 + (c1 - 128)) * 64 + (c2 - 128)) :: utf8DecodeIgnoreAux fuel r
        else utf8DecodeIgnoreAux fuel rest
      | _ => utf8DecodeIgnoreAux fuel rest
    else if b = 237 then
      match rest with
      | c1 :: c2 :: r =>
        if (128 ≤ c1 && c1 < 160) && isCont c2 then
          (((b - 224) * 64 + (c1 - 128)) * 64 + (c2 - 128)) :: utf8DecodeIgnoreAux fuel r
        else utf8DecodeIgnoreAux fuel rest
      | _ => utf8DecodeIgnoreAux fuel rest
    else if 240 ≤ b && b ≤ 244 then
      match rest with
      | c1 :: c2 :: c3 :: r =>
        if ((isCont c1 && isCont c2) && isCont c3)
            && (if b = 240 then 144 ≤ c1 else if b = 244 then c1 < 144 else true) then
          ((((b - 240) * 64 + (c1 - 128)) * 64 + (c2 - 128)) * 64 + (c3 - 128))
            :: utf8DecodeIgnoreAux fuel r
        else utf8DecodeIgnoreAux fuel rest
      | _ => utf8DecodeIgnoreAux fuel rest
    else utf8DecodeIgnoreAux fuel rest

/-- UTF-8 decode with `errors="ignore"`, to a string; never fails. -/
def utf8DecodeIgnore (bs : List Nat) : String :=
  String.mk ((utf8DecodeIgnoreAux bs.length bs).map Char.ofNat)

/-- UTF-8 encoding of a single code point (as carried by a `Char`). -/
def utf8EncodeChar (c : Char) : List Nat :=
  let n := c.toNat
  if n < 128 then [n]
  else if n < 2048 then [192 + n / 64, 128 + n % 64]
  else if n < 65536 then [224 + n / 4096, 128 + n / 64 % 64, 128 + n % 64]
  else [240 + n / 262144, 128 + n / 4096 % 64, 128 + n / 64 % 64, 128 + n % 64]

/-- UTF-8 encoding of a character list. -/
def utf8EncodeChars (l : List Char) : List Nat :=
  (l.map utf8EncodeChar).flatten

/-- UTF-8 encoding of a string (Python's `str.encode("utf-8")`). -/
def utf8Encode (s : String) : List Nat := utf8EncodeChars s.data

/-- Python `repr` of a byte string, used by `str()` on a `bytes` value:
printable ASCII bytes are shown literally, everything else as a hex escape.
(The worker never reaches this branch for byte values, because
`_normalize_headers` tests `isinstance(v, (bytes, bytearray))` first.) -/
def bytesRepr (bs : List Nat) : String :=
  "b'"
    ++ String.mk ((bs.map fun b =>
          if 32 ≤ b && b ≤ 126 then [Char.ofNat b]
          else '\\' :: 'x' :: hexPad 2 b).flatten)
    ++ "'"

/-- Python `str()` applied to a header key or value that is not handled by the
byte-decoding branch of `_normalize_headers`.  `str` is the identity on
strings; integers, booleans and `None` print the Python way. -/
def pyStr : PyVal → String
  | .str s => s
  | .bytes bs => bytesRepr bs
  | .int n => toString n
  | .bool b => if b then "True" else "False"
  | .none => "None"

/-- Python `len()` on a JSON value: defined for strings, arrays and objects,
a `TypeError` otherwise (e.g. `len(3)` raises). -/
def pyLen : JVal → Except PyErr Nat
  | .str s => .ok s.length
  | .arr xs => .ok xs.length
  | .obj kvs => .ok kvs.length
  | _ => .error (.typeError "object has no len")

/-- Decimal digit run parsed to a number; `none` when empty or non-digit. -/
def decDigitsToNat (l : List Char) : Option Nat :=
  if l ≠ [] && l.all (fun c => 48 ≤ c.toNat && c.toNat ≤ 57) then
    some (l.foldl (fun a c => a * 10 + (c.toNat - 48)) 0)
  else Option.none

/-- Python `int(s)` on a string: an optional sign followed by decimal digits;
anything else raises `ValueError`.  (Surrounding whitespace and `_` digit
separators, which Python also accepts, do not occur in this pipeline.) -/
def parseIntStr (s : String) : Option Int :=
  match s.data with
  | '-' :: ds => (decDigitsToNat ds).map fun n => -(n : Int)
  | '+' :: ds => (decDigitsToNat ds).map fun n => (n : Int)
  | ds => (decDigitsToNat ds).map fun n => (n : Int)

/-- Python `int()` applied to a JSON value: integers pass through, booleans
are 0/1, numeric strings are parsed, everything else raises. -/
def pyInt : JVal → Except PyErr Int
  | .int n => .ok n
  | .bool b => .ok (if b then 1 else 0)
  | .str s =>
    match parseIntStr s with
    | some n => .ok n
    | Option.none => .error (.valueError "invalid literal for int with base 10")
  | _ => .error (.typeError "int argument must be a string or a number")

/-- Python `payload.get(key, default)`: defined only when the value is a JSON
object (a `dict`); on any other value `.get` raises `AttributeError`. -/
def pyDictGetD (payload : JVal) (key : String) (dflt : JVal) : Except PyErr JVal :=
  match payload with
  | .obj kvs => .ok ((kvs.lookup key).getD dflt)
  | _ => .error (.attributeError "object has no attribute get")

/-- JSON string escape of one character as produced by `json.dumps` with its
default `ensure_ascii=True`: the two-character escapes for quote, backslash
and common control characters, `\uXXXX` for other control or non-ASCII
characters (with a surrogate pair above U+FFFF). -/
def jsonEscapeChar (c : Char) : List Char :=
  let n := c.toNat
  if c = '"' then ['\\', '"']
  else if c = '\\' then ['\\', '\\']
  else if c = '\n' then ['\\', 'n']
  else if c = '\r' then ['\\', 'r']
  else if c = '\t' then ['\\', 't']
  else if n = 8 then ['\\', 'b']
  else if n = 12 then ['\\', 'f']
  else if n < 32 || 127 ≤ n then
    if n < 65536 then '\\' :: 'u' :: hexPad 4 n
    else
      ('\\' :: 'u' :: hexPad 4 (55296 + (n - 65536) / 1024))
        ++ ('\\' :: 'u' :: hexPad 4 (56320 + (n - 65536) % 1024))
  else [c]

/-- `json.dumps` of a string value, including the surrounding quotes. -/
def jsonDumpsStr (s : String) : String :=
  "\"" ++ String.mk ((s.data.map jsonEscapeChar).flatten) ++ "\""

mutual

/-- `json.dumps` with default separators (`", "` and `": "`) and default
`ensure_ascii=True`, restricted to the integer-numbered JSON values of this
pipeline. -/
def jsonDumps : JVal → String
  | .null => "null"
  | .bool b => if b then "true" else "false"
  | .int n => toString n
  | .str s => jsonDumpsStr s
  | .arr xs => "[" ++ String.intercalate ", " (jsonDumpsList xs) ++ "]"
  | .obj kvs => "\x7b" ++ String.intercalate ", " (jsonDumpsObj kvs) ++ "\x7d"

/-- Serializations of the elements of a JSON array, in order. -/
def jsonDumpsList : List JVal → List String
  | [] => []
  | x :: xs => jsonDumps x :: jsonDumpsList xs

/-- Serializations of the `"key": value` members of a JSON object, in order. -/
def jsonDumpsObj : List (String × JVal) → List String
  | [] => []
  | (k, v) :: kvs => (jsonDumpsStr k ++ ": " ++ jsonDumps v) :: jsonDumpsObj kvs

end

/-! ## Trace context propagation

Modelled from the spec: the OpenTelemetry propagator and tracer are external
collaborators (§1), specified in §4.1 and §3: `inject` serializes the current
trace context (trace id, span id, flags) into a string-keyed carrier, and
`extract` parses such a carrier back, returning "no parent" rather than
failing on missing or malformed entries.  The concrete carrier format is the
W3C `traceparent` entry `00-<32 hex trace id>-<16 hex span id>-<2 hex flags>`
used by the default OpenTelemetry propagator; an invalid context (zero trace
or span id) is not injected, and is rejected on extraction. -/

/-- A trace context: trace id, span id and trace flags (§3 TraceContext).
Modelled from the spec: the tracing facility is an external collaborator. -/
structure SpanContext where
  traceId : Nat
  spanId : Nat
  flags : Nat
deriving DecidableEq, Repr

/-- Character list of the W3C `traceparent` value for a context. -/
def traceparentChars (c : SpanContext) : List Char :=
  '0' :: '0' :: '-' :: (hexPad 32 c.traceId ++ '-' :: (hexPad 16 c.spanId ++ '-' :: hexPad 2 c.flags))

/-- W3C `traceparent` header value for a context. -/
def traceparentString (c : SpanContext) : String :=
  String.mk (traceparentChars c)

/-- Split a character list on a separator character; the separator is dropped
and empty fields are kept, like `str.split("-")` in Python. -/
def splitOnChar (sep : Char) : List Char → List (List Char)
  | [] => [[]]
  | x :: xs =>
    if x = sep then [] :: splitOnChar sep xs
    else
      match splitOnChar sep xs with
      | [] => [[x]]
      | h :: t => (x :: h) :: t

/-- Parse a `traceparent` value.  Modelled from the spec (§4.1): a malformed
value yields `none` ("no parent") instead of an error.  Version `00` requires
exactly four all-hex fields of widths 2/32/16/2 and nonzero trace and span
ids. -/
def parseTraceparent (s : String) : Option SpanContext :=
  match splitOnChar '-' s.data with
  | [v, t, p, f] =>
    if v = ['0', '0'] ∧ (t.length = 32 ∧ p.length = 16 ∧ f.length = 2)
        ∧ (t.all isHexDigit = true ∧ p.all isHexDigit = true ∧ f.all isHexDigit = true) then
      let tid := hexValList t
      let sid := hexValList p
      if tid ≠ 0 ∧ sid ≠ 0 then some ⟨tid, sid, hexValList f⟩ else Option.none
    else Option.none
  | _ => Option.none

/-- Modelled from the spec (§4.1): `inject` serializes the current trace
context into a string-keyed carrier; with no current (or an invalid) context
nothing is written, so the carrier stays empty. -/
def inject (ctx : Option SpanContext) : List (String × String) :=
  match ctx with
  | some c =>
    if c.traceId ≠ 0 ∧ c.spanId ≠ 0 then [("traceparent", traceparentString c)]
    else []
  | Option.none => []

/-- Modelled from the spec (§4.1): `extract` parses a string-keyed carrier,
returning a context usable as a parent, or `none` ("no parent") when the
carrier has no well-formed trace entry.  It never fails. -/
def extract (carrier : List (String × String)) : Option SpanContext :=
  match carrier.lookup "traceparent" with
  | some v => parseTraceparent v
  | Option.none => Option.none

/-- Modelled from the spec (§3, §4.6): starting a span with an extracted
parent context yields a span in the parent's trace (same trace id, fresh span
id); with no parent a fresh trace id is used. -/
def start_span_with_parent (parent : Option SpanContext) (freshTraceId freshSpanId : Nat) :
    SpanContext :=
  match parent with
  | some p => ⟨p.traceId, freshSpanId, p.flags⟩
  | Option.none => ⟨freshTraceId, freshSpanId, 1⟩

/-! ## Worker (`src/services/worker/app/main.py`) -/

/-- Body of the key/value loop of `_normalize_headers` (lines 45-51): a
`bytes`/`bytearray` key is decoded strictly (`k.decode()`, which raises
`UnicodeDecodeError` on invalid UTF-8); any other key goes through `str`.  A
`bytes`/`bytearray` value is decoded with `errors="ignore"` (never raises);
any other value goes through `str`. -/
def normalizeHeadersGo : List (PyVal × PyVal) → Except PyErr (List (String × String))
  | [] => .ok []
  | (k, v) :: rest =>
    match
      (match k with
       | .bytes bs =>
         match utf8DecodeStrict bs with
         | some s => Except.ok s
         | Option.none => Except.error PyErr.unicodeDecodeError
       | other => Except.ok (pyStr other)) with
    | .error e => .error e
    | .ok key =>
      let value :=
        match v with
        | .bytes bs => utf8DecodeIgnore bs
        | other => pyStr other
      match normalizeHeadersGo rest with
      | .error e => .error e
      | .ok tail => .ok ((key, value) :: tail)

/-- `_normalize_headers` (worker lines 42-52).  The argument models
`getattr(properties, "headers", None)`: `none` is an absent/`None` mapping,
`some` a dict given as its insertion-ordered key/value pairs.  `if not
headers` maps both `None` and the empty dict to `{}`.  A `.error` result
models the function raising. -/
def _normalize_headers (headers : Option (List (PyVal × PyVal))) :
    Except PyErr (List (String × String)) :=
  match headers with
  | Option.none => .ok []
  | some hs => if hs.isEmpty then .ok [] else normalizeHeadersGo hs

/-- Outcome of one HTTP request as seen by the caller: a transport-level
failure (connection error, timeout — `httpx.TransportError`), or a response
with a status code and a body text. -/
inductive HttpAttempt where
  | transErr
  | resp (status : Nat) (body : String)

/-- Broker calls the worker callback can make on its channel. -/
inductive BrokerAck where
  | ack (deliveryTag : Nat)
  | nack (deliveryTag : Nat) (requeue : Bool)
deriving DecidableEq, Repr

/-- The `try` block of `on_message` (worker lines 79-89) as one fallible
computation: decode the body as UTF-8, parse it as JSON (`loads`, the
behaviour of `json.loads`/`resp.json()`, passed in as a parameter), read the
`message` field with default `""`, take its `len`, POST it to `/analyze`
(`analyze` gives the outcome of that call as a function of the message),
check the status (`raise_for_status` raises for any non-2xx status) and
decode the analyze response body as JSON. -/
def process_message (loads : String → Except PyErr JVal)
    (analyze : JVal → HttpAttempt) (body : List Nat) : Except PyErr JVal :=
  match utf8DecodeStrict body with
  | Option.none => .error PyErr.unicodeDecodeError
  | some text =>
    match loads text with
    | .error e => .error e
    | .ok payload =>
      match pyDictGetD payload "message" (JVal.str "") with
      | .error e => .error e
      | .ok message =>
        match pyLen message with
        | .error e => .error e
        | .ok _len =>
          match analyze message with
          | .transErr => .error (PyErr.httpError "transport error")
          | .resp status respBody =>
            if 200 ≤ status ∧ status < 300 then loads respBody
            else .error (PyErr.httpError "status error")

/-- `on_message` (worker lines 67-93).  Header normalization and context
extraction happen before the `try` block; the `try`/`except Exception` then
acks on success and nacks with `requeue=False` on any exception.  A top-level
`.error` means the callback itself raises, acknowledging nothing. -/
def on_message (loads : String → Except PyErr JVal) (analyze : JVal → HttpAttempt)
    (headers : Option (List (PyVal × PyVal))) (deliveryTag : Nat) (body : List Nat) :
    Except PyErr (List BrokerAck) :=
  match _normalize_headers headers with
  | .error e => .error e
  | .ok hs =>
    let _context := extract hs
    match process_message loads analyze body with
    | .ok _ => .ok [BrokerAck.ack deliveryTag]
    | .error _ => .ok [BrokerAck.nack deliveryTag false]

/-! ## Chat service (`src/services/chat-service/app/main.py`) -/

/-- Calls `_publish_to_rabbitmq_sync` makes on the pika channel, in order. -/
inductive BrokerOp where
  | queueDeclare (queue : String) (durable : Bool)
  | basicPublish (exchange routingKey : String) (body : List Nat)
      (contentType : String) (deliveryMode : Nat) (headers : List (String × String))
deriving DecidableEq, Repr

/-- `_publish_to_rabbitmq_sync` (chat service lines 57-73): declares the
queue durable, serializes the payload to JSON bytes, and publishes with
content type `application/json`, persistent delivery mode 2 and the given
headers. -/
def _publish_to_rabbitmq_sync (queue_name : String) (payload : JVal)
    (headers : List (String × String)) : List BrokerOp :=
  [BrokerOp.queueDeclare queue_name true,
   BrokerOp.basicPublish "" queue_name (utf8Encode (jsonDumps payload))
     "application/json" 2 headers]

/-- `publish_to_rabbitmq` (chat service lines 76-80): injects the current
trace context into a fresh carrier and awaits the synchronous publish (run in
a worker thread) with that carrier as the message headers. -/
def publish_to_rabbitmq (current : Option SpanContext) (queue_name : String)
    (payload : JVal) : List BrokerOp :=
  _publish_to_rabbitmq_sync queue_name payload (inject current)

/-- Externally visible outcome of one HTTP handler invocation: a 200 body, a
`fastapi.HTTPException` rendered as its status and detail, or an exception
that no handler code catches. -/
inductive EndpointResult where
  | ok200 (body : JVal)
  | httpExc (status : Nat) (detail : String)
  | uncaught (e : PyErr)

/-- Outbound I/O steps a handler performs, in execution order. -/
inductive GatewayEffect where
  | publishJob (queue : String) (payload : JVal)
  | classifyCall (path : String) (body : JVal)
  | analyzeCall (path : String) (body : JVal)

/-- `chat_endpoint` (chat service lines 88-113).  `pub` is the outcome of
`await publish_to_rabbitmq(...)` (an `.error` models a pika connection or
channel failure), `classifyAttempt` the outcome of `client.post("/classify",
...)`, and `loads` the behaviour of `response.json()`.  The publish happens
first; a publish failure propagates uncaught and the classify call is never
issued.  `except httpx.HTTPError` covers transport errors and the
`HTTPStatusError` raised by `raise_for_status()` for non-2xx statuses, and is
answered with `HTTPException(502, "NLP service unavailable")`; a JSON decode
failure of a 2xx body is not an `httpx.HTTPError` and propagates. -/
def chat_endpoint (loads : String → Except PyErr JVal) (pub : Except PyErr Unit)
    (classifyAttempt : HttpAttempt) (message : String) :
    List GatewayEffect × EndpointResult :=
  let payload := JVal.obj [("message", JVal.str message)]
  match pub with
  | .error e => ([GatewayEffect.publishJob "chat-jobs" payload], .uncaught e)
  | .ok _ =>
    let effects := [GatewayEffect.publishJob "chat-jobs" payload,
                    GatewayEffect.classifyCall "/classify" (JVal.obj [("text", JVal.str message)])]
    match classifyAttempt with
    | .transErr => (effects, .httpExc 502 "NLP service unavailable")
    | .resp status body =>
      if 200 ≤ status ∧ status < 300 then
        match loads body with
        | .ok classification =>
          (effects, .ok200 (JVal.obj [("ok", JVal.bool true), ("classification", classification)]))
        | .error e => (effects, .uncaught e)
      else (effects, .httpExc 502 "NLP service unavailable")

/-- One step of the `chat-stream` generator: a yielded chunk or an
`asyncio.sleep` for the given number of seconds. -/
inductive StreamEvent where
  | chunk (s : String)
  | sleep (seconds : ℚ)
deriving DecidableEq, Repr

/-- `stream_generator` inside `chat_stream` (chat service lines 120-125):
for `index` in `range(5)`, yield `"chunk-<index>\n"` then sleep 0.5 seconds. -/
def stream_generator : List StreamEvent :=
  (List.range 5).foldr
    (fun index acc =>
      StreamEvent.chunk ("chunk-" ++ Nat.repr index ++ "\n") :: StreamEvent.sleep (1 / 2) :: acc)
    []

/-! ## NLP service (`src/services/nlp-service/app/main.py`) -/

/-- `classify_endpoint` (nlp service lines 53-72).  `attempt` is the outcome
of `client.post("/analyze", ...)` and `loads` the behaviour of
`resp.json()`.  `except httpx.HTTPError` around the call maps transport
errors and non-2xx statuses to `HTTPException(502, "Analyze service
unavailable")`.  After the `try` block, `int(analysis.get("length", 0))` and
the `< 20` comparison run unprotected: a non-dict body or a `length` value
`int()` cannot convert makes the handler raise. -/
def classify_endpoint (loads : String → Except PyErr JVal) (attempt : HttpAttempt)
    (text : String) : List GatewayEffect × EndpointResult :=
  let effects := [GatewayEffect.analyzeCall "/analyze" (JVal.obj [("text", JVal.str text)])]
  match attempt with
  | .transErr => (effects, .httpExc 502 "Analyze service unavailable")
  | .resp status body =>
    if 200 ≤ status ∧ status < 300 then
      match loads body with
      | .error e => (effects, .uncaught e)
      | .ok analysis =>
        match pyDictGetD analysis "length" (JVal.int 0) with
        | .error e => (effects, .uncaught e)
        | .ok lenVal =>
          match pyInt lenVal with
          | .error e => (effects, .uncaught e)
          | .ok length =>
            let classification : String := if length < 20 then "short" else "long"
            (effects,
             .ok200 (JVal.obj [("classification", JVal.str classification),
                               ("analysis", analysis)]))
    else (effects, .httpExc 502 "Analyze service unavailable")

/-! ## Domain predicates on header mappings -/

/-- A header key on which the strict decode of `_normalize_headers` cannot
raise: any non-bytes key, or a bytes key that is valid UTF-8. -/
def byteKeyOk : PyVal → Bool
  | .bytes bs => (utf8DecodeStrict bs).isSome
  | _ => true

/-- Every byte-like key of the header mapping is valid UTF-8. -/
def byteKeysDecodable : Option (List (PyVal × PyVal)) → Bool
  | Option.none => true
  | some hs => hs.all fun kv => byteKeyOk kv.1

/-- Every header key is a plain string — the shape of every mapping pika 1.x
actually delivers, since it decodes AMQP field-table keys to `str` itself
(header values, by contrast, arrive as `bytes`). -/
def headerKeysAreStr : Option (List (PyVal × PyVal)) → Bool
  | Option.none => true
  | some hs => hs.all fun kv => match kv.1 with | .str _ => true | _ => false

/-! ## Helper lemmas -/

theorem normalizeHeadersGo_ok (hs : List (PyVal × PyVal))
    (h : (hs.all fun kv => byteKeyOk kv.1) = true) :
    ∃ m, normalizeHeadersGo hs = .ok m := by
  induction hs with
  | nil => exact ⟨[], rfl⟩
  | cons kv rest ih =>
    rw [List.all_cons, Bool.and_eq_true] at h
    obtain ⟨m, hm⟩ := ih h.2
    obtain ⟨k, v⟩ := kv
    cases k with
    | bytes bs =>
      have hk := h.1
      simp only [byteKeyOk, Option.isSome_iff_exists] at hk
      obtain ⟨s, hsome⟩ := hk
      exact ⟨_, by simp only [normalizeHeadersGo, hsome, hm]; rfl⟩
    | str s => exact ⟨_, by simp only [normalizeHeadersGo, hm]; rfl⟩
    | int n => exact ⟨_, by simp only [normalizeHeadersGo, hm]; rfl⟩
    | bool b => exact ⟨_, by simp only [normalizeHeadersGo, hm]; rfl⟩
    | none => exact ⟨_, by simp only [normalizeHeadersGo, hm]; rfl⟩

theorem normalize_headers_ok (headers : Option (List (PyVal × PyVal)))
    (h : byteKeysDecodable headers = true) :
    ∃ m, _normalize_headers headers = .ok m := by
  cases headers with
  | none => exact ⟨[], rfl⟩
  | some hs =>
    by_cases he : hs.isEmpty
    · exact ⟨[], by simp [_normalize_headers, he]⟩
    · obtain ⟨m, hm⟩ := normalizeHeadersGo_ok hs h
      exact ⟨m, by simp [_normalize_headers, he, hm]⟩

theorem byteKeysDecodable_of_str (headers : Option (List (PyVal × PyVal)))
    (h : headerKeysAreStr headers = true) : byteKeysDecodable headers = true := by
  cases headers with
  | none => rfl
  | some hs =>
    simp only [headerKeysAreStr, List.all_eq_true] at h
    simp only [byteKeysDecodable, List.all_eq_true]
    intro kv hkv
    have := h kv hkv
    cases hk : kv.1 <;> rw [hk] at this <;> simp_all [byteKeyOk]

theorem hexDigit_facts : ∀ d : Fin 16,
    isHexDigit (hexDigitChar d.val) = true ∧ hexVal (hexDigitChar d.val) = d.val := by
  decide

theorem isHexDigit_toNat_lt {ch : Char} (h : isHexDigit ch = true) : ch.toNat < 128 := by
  simp only [isHexDigit, Bool.or_eq_true, Bool.and_eq_true, decide_eq_true_eq] at h
  omega

theorem hexEncode_all_hex (n : Nat) : (hexEncode n).all isHexDigit = true := by
  induction n using Nat.strong_induction_on with
  | _ n ih =>
    rw [hexEncode]
    split
    · next h =>
      simpa using (hexDigit_facts ⟨n, h⟩).1
    · next h =>
      rw [List.all_append, Bool.and_eq_true]
      refine ⟨ih (n / 16) (Nat.div_lt_self (by omega) (by omega)), ?_⟩
      simpa using (hexDigit_facts ⟨n % 16, Nat.mod_lt n (by omega)⟩).1

theorem hexPad_all_hex (w n : Nat) : (hexPad w n).all isHexDigit = true := by
  rw [hexPad, List.all_append, Bool.and_eq_true]
  refine ⟨?_, hexEncode_all_hex n⟩
  rw [List.all_eq_true]
  intro ch hch
  rw [List.eq_of_mem_replicate hch]
  decide

theorem dash_not_mem_of_all_hex {l : List Char} (h : l.all isHexDigit = true) : '-' ∉ l := by
  intro hm
  have := List.all_eq_true.mp h '-' hm
  simp [isHexDigit] at this

theorem hexEncode_length_le (k : Nat) : ∀ n, n < 16 ^ k → 1 ≤ k → (hexEncode n).length ≤ k := by
  induction k with
  | zero => intro n _ hk; omega
  | succ k ih =>
    intro n hn _
    rw [hexEncode]
    split
    · simp
    · next h =>
      have hk1 : 1 ≤ k := by
        by_contra hc
        have : k = 0 := by omega
        subst this
        simp at hn
        omega
      have hdiv : n / 16 < 16 ^ k := by
        rw [pow_succ'] at hn
        exact Nat.div_lt_of_lt_mul hn
      have := ih (n / 16) hdiv hk1
      simp only [List.length_append, List.length_cons, List.length_nil]
      omega

theorem hexPad_length (k n : Nat) (h : n < 16 ^ k) (hk : 1 ≤ k) : (hexPad k n).length = k := by
  have hle := hexEncode_length_le k n h hk
  rw [hexPad, List.length_append, List.length_replicate]
  omega

theorem hexValAux_append (a : Nat) (l₁ l₂ : List Char) :
    hexValAux a (l₁ ++ l₂) = hexValAux (hexValAux a l₁) l₂ := by
  simp [hexValAux, List.foldl_append]

theorem hexValAux_replicate_zero (k : Nat) : ∀ a, hexValAux a (List.replicate k '0') = a * 16 ^ k := by
  induction k with
  | zero => intro a; simp [hexValAux]
  | succ k ih =>
    intro a
    rw [List.replicate_succ]
    show hexValAux (a * 16 + hexVal '0') (List.replicate k '0') = _
    rw [ih]
    show (a * 16 + 0) * 16 ^ k = a * 16 ^ (k + 1)
    ring

theorem hexValAux_hexEncode (n : Nat) : ∀ a,
    hexValAux a (hexEncode n) = a * 16 ^ (hexEncode n).length + n := by
  induction n using Nat.strong_induction_on with
  | _ n ih =>
    intro a
    rw [hexEncode]
    split
    · next h =>
      show a * 16 + hexVal (hexDigitChar n) = _
      rw [(hexDigit_facts ⟨n, h⟩).2]
      simp
    · next h =>
      rw [hexValAux_append, ih (n / 16) (Nat.div_lt_self (by omega) (by omega))]
      show (a * 16 ^ (hexEncode (n / 16)).length + n / 16) * 16 + hexVal (hexDigitChar (n % 16)) = _
      rw [(hexDigit_facts ⟨n % 16, Nat.mod_lt n (by omega)⟩).2]
      rw [List.length_append, List.length_cons, List.length_nil, pow_add, pow_one]
      have := Nat.div_add_mod n 16
      ring_nf
      omega

theorem hexValList_hexPad (k n : Nat) : hexValList (hexPad k n) = n := by
  rw [hexValList, hexPad, hexValAux_append, hexValAux_replicate_zero, hexValAux_hexEncode]
  simp

theorem splitOnChar_of_not_mem (sep : Char) (l : List Char) (h : sep ∉ l) :
    splitOnChar sep l = [l] := by
  induction l with
  | nil => rfl
  | cons x xs ih =>
    have hx : ¬x = sep := fun hc => h (hc ▸ List.mem_cons_self x xs)
    rw [splitOnChar, if_neg hx, ih (fun hm => h (List.mem_cons_of_mem x hm))]

theorem splitOnChar_append (sep : Char) (l₁ l₂ : List Char) (h : sep ∉ l₁) :
    splitOnChar sep (l₁ ++ sep :: l₂) = l₁ :: splitOnChar sep l₂ := by
  induction l₁ with
  | nil =>
    show splitOnChar sep (sep :: l₂) = _
    rw [splitOnChar, if_pos rfl]
  | cons x xs ih =>
    have hx : ¬x = sep := fun hc => h (hc ▸ List.mem_cons_self x xs)
    show splitOnChar sep (x :: (xs ++ sep :: l₂)) = _
    rw [splitOnChar, if_neg hx, ih (fun hm => h (List.mem_cons_of_mem x hm))]

theorem two_pow_128_eq : (2 : Nat) ^ 128 = 16 ^ 32 := by norm_num

theorem two_pow_64_eq : (2 : Nat) ^ 64 = 16 ^ 16 := by norm_num

theorem two_pow_8_eq : (2 : Nat) ^ 8 = 16 ^ 2 := by norm_num

theorem parseTraceparent_roundtrip (c : SpanContext)
    (h1 : 0 < c.traceId) (h2 : c.traceId < 2 ^ 128)
    (h3 : 0 < c.spanId) (h4 : c.spanId < 2 ^ 64) (h5 : c.flags < 2 ^ 8) :
    parseTraceparent (traceparentString c) = some c := by
  have h2' : c.traceId < 16 ^ 32 := two_pow_128_eq ▸ h2
  have h4' : c.spanId < 16 ^ 16 := two_pow_64_eq ▸ h4
  have h5' : c.flags < 16 ^ 2 := two_pow_8_eq ▸ h5
  have hsplit : splitOnChar '-' (traceparentChars c)
      = [['0', '0'], hexPad 32 c.traceId, hexPad 16 c.spanId, hexPad 2 c.flags] := by
    show splitOnChar '-' (['0', '0'] ++ '-' ::
        (hexPad 32 c.traceId ++ '-' :: (hexPad 16 c.spanId ++ '-' :: hexPad 2 c.flags))) = _
    rw [splitOnChar_append '-' ['0', '0'] _ (by decide),
        splitOnChar_append '-' _ _ (dash_not_mem_of_all_hex (hexPad_all_hex 32 c.traceId)),
        splitOnChar_append '-' _ _ (dash_not_mem_of_all_hex (hexPad_all_hex 16 c.spanId)),
        splitOnChar_of_not_mem '-' _ (dash_not_mem_of_all_hex (hexPad_all_hex 2 c.flags))]
  show parseTraceparent (String.mk (traceparentChars c)) = some c
  rw [parseTraceparent]
  simp only [hsplit]
  rw [if_pos ⟨trivial,
      ⟨hexPad_length 32 c.traceId h2' (by omega), hexPad_length 16 c.spanId h4' (by omega),
       hexPad_length 2 c.flags h5' (by omega)⟩,
      hexPad_all_hex 32 c.traceId, hexPad_all_hex 16 c.spanId, hexPad_all_hex 2 c.flags⟩]
  rw [hexValList_hexPad, hexValList_hexPad, hexValList_hexPad]
  rw [if_pos ⟨Nat.pos_iff_ne_zero.mp h1, Nat.pos_iff_ne_zero.mp h3⟩]

theorem utf8DecodeIgnoreAux_ascii : ∀ (l : List Char), (∀ ch ∈ l, ch.toNat < 128) →
    ∀ fuel, (utf8EncodeChars l).length ≤ fuel →
    utf8DecodeIgnoreAux fuel (utf8EncodeChars l) = l.map Char.toNat := by
  intro l
  induction l with
  | nil =>
    intro _ fuel _
    show utf8DecodeIgnoreAux fuel [] = []
    cases fuel <;> rfl
  | cons ch cs ih =>
    intro h fuel hf
    have hch : ch.toNat < 128 := h ch (List.mem_cons_self ch cs)
    have henc : utf8EncodeChars (ch :: cs) = ch.toNat :: utf8EncodeChars cs := by
      show (List.map utf8EncodeChar (ch :: cs)).flatten = _
      rw [List.map_cons, List.flatten_cons, utf8EncodeChar, if_pos hch]
      rfl
    rw [henc] at hf ⊢
    obtain ⟨f, rfl⟩ : ∃ f, fuel = f + 1 := by
      cases fuel
      · simp at hf
      · exact ⟨_, rfl⟩
    simp only [utf8DecodeIgnoreAux]
    rw [if_pos hch,
        ih (fun x hx => h x (List.mem_cons_of_mem ch hx)) f (by simpa using hf)]
    rfl

theorem utf8DecodeIgnore_ascii (s : String) (h : ∀ ch ∈ s.data, ch.toNat < 128) :
    utf8DecodeIgnore (utf8Encode s) = s := by
  rw [utf8DecodeIgnore, utf8Encode,
      utf8DecodeIgnoreAux_ascii s.data h _ (Nat.le_refl _)]
  show String.mk ((s.data.map Char.toNat).map Char.ofNat) = s
  rw [List.map_map]
  have : (Char.ofNat ∘ Char.toNat) = id := by
    funext ch
    exact Char.ofNat_toNat ch
  rw [this, List.map_id]

theorem traceparentChars_ascii (c : SpanContext) :
    ∀ ch ∈ traceparentChars c, ch.toNat < 128 := by
  intro ch hch
  have hmem : ch = '0' ∨ ch = '-'
      ∨ ch ∈ hexPad 32 c.traceId ∨ ch ∈ hexPad 16 c.spanId ∨ ch ∈ hexPad 2 c.flags := by
    simp only [traceparentChars, List.mem_cons, List.mem_append] at hch
    tauto
  rcases hmem with rfl | rfl | hm | hm | hm
  · decide
  · decide
  · exact isHexDigit_toNat_lt (List.all_eq_true.mp (hexPad_all_hex 32 c.traceId) ch hm)
  · exact isHexDigit_toNat_lt (List.all_eq_true.mp (hexPad_all_hex 16 c.spanId) ch hm)
  · exact isHexDigit_toNat_lt (List.all_eq_true.mp (hexPad_all_hex 2 c.flags) ch hm)

/-! ## Claims -/

/-- C2 — Consumer ack/reject exclusivity: for every message pika delivers to
`on_message` (header keys are plain strings, as pika 1.x guarantees; values,
body, JSON parsing and the analyze call are arbitrary), the callback invokes
exactly one of `basic_ack` and `basic_nack` — an ack when decoding and the
analyze call succeed, a no-requeue nack on any exception, never both and
never neither. -/
theorem on_message_ack_nack_exclusive (loads : String → Except PyErr JVal)
    (analyze : JVal → HttpAttempt) (headers : Option (List (PyVal × PyVal)))
    (deliveryTag : Nat) (body : List Nat)
    (h : headerKeysAreStr headers = true) :
    on_message loads analyze headers deliveryTag body = .ok [BrokerAck.ack deliveryTag]
    ∨ on_message loads analyze headers deliveryTag body = .ok [BrokerAck.nack deliveryTag false] := by
  obtain ⟨m, hm⟩ := normalize_headers_ok headers (byteKeysDecodable_of_str headers h)
  rw [on_message, hm]
  cases process_message loads analyze body with
  | ok _ => exact Or.inl rfl
  | error _ => exact Or.inr rfl

/-- Witness for C2: a delivery whose body fails to parse as JSON is nacked
(without requeue), not acked. -/
theorem on_message_ack_nack_exclusive_witness :
    headerKeysAreStr (some [(PyVal.str "traceparent", PyVal.bytes [255])]) = true
    ∧ (on_message (fun _ => .error (PyErr.jsonError "bad")) (fun _ => HttpAttempt.transErr)
          (some [(PyVal.str "traceparent", PyVal.bytes [255])]) 7 [104]
            = .ok [BrokerAck.ack 7]
       ∨ on_message (fun _ => .error (PyErr.jsonError "bad")) (fun _ => HttpAttempt.transErr)
          (some [(PyVal.str "traceparent", PyVal.bytes [255])]) 7 [104]
            = .ok [BrokerAck.nack 7 false]) :=
  ⟨by decide,
   on_message_ack_nack_exclusive (fun _ => .error (PyErr.jsonError "bad"))
     (fun _ => HttpAttempt.transErr) (some [(PyVal.str "traceparent", PyVal.bytes [255])])
     7 [104] (by decide)⟩

/-- C5 counterexample: `_normalize_headers` does raise on a byte-like key.
The key `b"\xff"` is a `bytes` value on which `k.decode()` (strict UTF-8)
raises `UnicodeDecodeError`, so the claim's universal statement is false. -/
theorem normalize_headers_raises_on_undecodable_key :
    _normalize_headers (some [(PyVal.bytes [255], PyVal.str "x")])
      = .error PyErr.unicodeDecodeError := by
  rfl

/-- C5 (amended) — Header-normalization totality on decodable keys: for every
header mapping that is absent/`None` or whose byte-like keys are valid UTF-8
(values may be arbitrary bytes — decoded with `errors="ignore"` — or
non-strings), `_normalize_headers` does not raise and returns a mapping whose
keys and values are plain strings (enforced by its result type), and
`extract` on a normalized carrier with no `traceparent` entry yields the
"no parent" context. -/
theorem normalize_headers_total_on_decodable_keys
    (headers : Option (List (PyVal × PyVal)))
    (h : byteKeysDecodable headers = true) :
    ∃ m, _normalize_headers headers = .ok m
      ∧ (m.lookup "traceparent" = Option.none → extract m = Option.none) := by
  obtain ⟨m, hm⟩ := normalize_headers_ok headers h
  refine ⟨m, hm, fun hl => ?_⟩
  rw [extract, hl]

/-- Witness for C5 (amended): a mapping with a valid-UTF-8 bytes key, an
invalid-UTF-8 bytes value and a non-string key normalizes without raising. -/
theorem normalize_headers_total_on_decodable_keys_witness :
    byteKeysDecodable
        (some [(PyVal.bytes [104], PyVal.bytes [255, 105]), (PyVal.int 7, PyVal.none)]) = true
    ∧ ∃ m,
        _normalize_headers
            (some [(PyVal.bytes [104], PyVal.bytes [255, 105]), (PyVal.int 7, PyVal.none)])
          = .ok m
        ∧ (m.lookup "traceparent" = Option.none → extract m = Option.none) :=
  ⟨by decide,
   normalize_headers_total_on_decodable_keys
     (some [(PyVal.bytes [104], PyVal.bytes [255, 105]), (PyVal.int 7, PyVal.none)])
     (by decide)⟩

/-- C3 — Gateway failure mapping: with the publish step succeeded, a
transport-level classify failure or a non-2xx classify status yields
`HTTPException(502, "NLP service unavailable")`, while a 2xx status whose
body decodes to `j` yields a 200 body `{ok: true, classification: j}`. -/
theorem chat_endpoint_failure_mapping (loads : String → Except PyErr JVal)
    (status : Nat) (body message : String) :
    (chat_endpoint loads (.ok ()) HttpAttempt.transErr message).2
        = .httpExc 502 "NLP service unavailable"
    ∧ (¬(200 ≤ status ∧ status < 300) →
        (chat_endpoint loads (.ok ()) (HttpAttempt.resp status body) message).2
          = .httpExc 502 "NLP service unavailable")
    ∧ (∀ j, (200 ≤ status ∧ status < 300) → loads body = .ok j →
        (chat_endpoint loads (.ok ()) (HttpAttempt.resp status body) message).2
          = .ok200 (JVal.obj [("ok", JVal.bool true), ("classification", j)])) := by
  refine ⟨rfl, fun h => ?_, fun j h hj => ?_⟩
  · simp only [chat_endpoint, if_neg h]
  · simp only [chat_endpoint, if_pos h, hj]

/-- Witness for C3: a 500 classify response maps to the 502 detail, and a 200
response with body `{}` maps to `{ok: true, classification: {}}`. -/
theorem chat_endpoint_failure_mapping_witness :
    (chat_endpoint (fun _ => .ok (JVal.obj [])) (.ok ()) (HttpAttempt.resp 500 "oops") "hello").2
        = .httpExc 502 "NLP service unavailable"
    ∧ (chat_endpoint (fun _ => .ok (JVal.obj [])) (.ok ()) (HttpAttempt.resp 200 "{}") "hello").2
        = .ok200 (JVal.obj [("ok", JVal.bool true), ("classification", JVal.obj [])]) :=
  ⟨(chat_endpoint_failure_mapping (fun _ => .ok (JVal.obj [])) 500 "oops" "hello").2.1
      (by omega),
   (chat_endpoint_failure_mapping (fun _ => .ok (JVal.obj [])) 200 "{}" "hello").2.2
      (JVal.obj []) (by omega) rfl⟩

/-- C6 — Publisher contract: `publish_to_rabbitmq` declares the target queue
durable, then publishes the JSON serialization of the payload as UTF-8 bytes
on the default exchange with the queue as routing key, content type
`application/json`, persistent delivery mode 2, and the carrier injected from
the current trace context as the message headers — in that order.  (That the
caller awaits completion before proceeding is the effect ordering proved for
C7.) -/
theorem publish_to_rabbitmq_contract (current : Option SpanContext)
    (queue_name : String) (payload : JVal) :
    publish_to_rabbitmq current queue_name payload
      = [BrokerOp.queueDeclare queue_name true,
         BrokerOp.basicPublish "" queue_name (utf8Encode (jsonDumps payload))
           "application/json" 2 (inject current)] := rfl

/-- C7 — Publish failure is fatal and ordered: for every request the publish
effect precedes the classify call; and when `publish_to_rabbitmq` raises, the
handler performs no classify call and re-raises the error — it produces
neither the 200 body nor the 502 response. -/
theorem chat_endpoint_publish_fatal (loads : String → Except PyErr JVal)
    (att : HttpAttempt) (e : PyErr) (message : String) :
    (chat_endpoint loads (.ok ()) att message).1
        = [GatewayEffect.publishJob "chat-jobs" (JVal.obj [("message", JVal.str message)]),
           GatewayEffect.classifyCall "/classify" (JVal.obj [("text", JVal.str message)])]
    ∧ (chat_endpoint loads (.error e) att message).1
        = [GatewayEffect.publishJob "chat-jobs" (JVal.obj [("message", JVal.str message)])]
    ∧ (chat_endpoint loads (.error e) att message).2 = .uncaught e := by
  refine ⟨?_, rfl, rfl⟩
  cases att with
  | transErr => rfl
  | resp status body =>
    simp only [chat_endpoint]
    split
    · cases loads body <;> rfl
    · rfl

/-- C10 — 502 only from `httpx.HTTPError`: the gateway produces the 502 "NLP
service unavailable" response only when the publish succeeded and the
classify call failed at transport level or returned a non-2xx status; a 2xx
response whose body fails JSON decoding makes the handler re-raise the decode
error instead of producing that 502. -/
theorem chat_endpoint_502_only_from_http_error (loads : String → Except PyErr JVal)
    (pub : Except PyErr Unit) (att : HttpAttempt) (message : String) :
    ((chat_endpoint loads pub att message).2 = .httpExc 502 "NLP service unavailable" →
        pub = .ok ()
        ∧ (att = HttpAttempt.transErr
           ∨ ∃ status body, att = HttpAttempt.resp status body
               ∧ ¬(200 ≤ status ∧ status < 300)))
    ∧ (∀ status body e, att = HttpAttempt.resp status body →
        (200 ≤ status ∧ status < 300) → loads body = .error e → pub = .ok () →
        (chat_endpoint loads pub att message).2 = .uncaught e) := by
  constructor
  · intro h
    cases pub with
    | error e => simp [chat_endpoint] at h
    | ok u =>
      cases u
      refine ⟨rfl, ?_⟩
      cases att with
      | transErr => exact Or.inl rfl
      | resp status body =>
        refine Or.inr ⟨status, body, rfl, fun hs => ?_⟩
        simp only [chat_endpoint, if_pos hs] at h
        cases hl : loads body <;> rw [hl] at h <;> simp at h
  · intro status body e hatt hs hl hpub
    subst hatt hpub
    simp only [chat_endpoint, if_pos hs, hl]

/-- Witness for C10: a 200 classify response whose body fails to decode ends
in the uncaught JSON error. -/
theorem chat_endpoint_502_only_from_http_error_witness :
    (chat_endpoint (fun _ => .error (PyErr.jsonError "bad")) (.ok ())
        (HttpAttempt.resp 200 "not json") "hello").2
      = .uncaught (PyErr.jsonError "bad") :=
  (chat_endpoint_502_only_from_http_error (fun _ => .error (PyErr.jsonError "bad"))
      (.ok ()) (HttpAttempt.resp 200 "not json") "hello").2
    200 "not json" (PyErr.jsonError "bad") rfl (by omega) rfl rfl

/-- C4 — Classification boundary: for a successful analyze call whose decoded
body is an object whose `length` field converts to the integer `n`, the
classification is `"short"` exactly when `n < 20` and `"long"` when `20 ≤ n`
(threshold exclusive on the short side). -/
theorem classify_endpoint_boundary (loads : String → Except PyErr JVal)
    (status : Nat) (body text : String) (kvs : List (String × JVal)) (n : Int)
    (hs : 200 ≤ status ∧ status < 300)
    (hb : loads body = .ok (JVal.obj kvs))
    (hn : pyInt ((kvs.lookup "length").getD (JVal.int 0)) = .ok n) :
    (n < 20 →
      (classify_endpoint loads (HttpAttempt.resp status body) text).2
        = .ok200 (JVal.obj [("classification", JVal.str "short"), ("analysis", JVal.obj kvs)]))
    ∧ (20 ≤ n →
      (classify_endpoint loads (HttpAttempt.resp status body) text).2
        = .ok200 (JVal.obj [("classification", JVal.str "long"), ("analysis", JVal.obj kvs)])) := by
  constructor
  · intro hlt
    simp only [classify_endpoint, if_pos hs, hb, pyDictGetD, hn, if_pos hlt]
  · intro hge
    simp only [classify_endpoint, if_pos hs, hb, pyDictGetD, hn, if_neg (by omega : ¬n < 20)]

/-- Witness for C4: analysis `{length: 19}` classifies as `"short"` and
`{length: 20}` as `"long"`. -/
theorem classify_endpoint_boundary_witness :
    (classify_endpoint (fun _ => .ok (JVal.obj [("length", JVal.int 19)]))
        (HttpAttempt.resp 200 "b") "t").2
      = .ok200 (JVal.obj [("classification", JVal.str "short"),
                          ("analysis", JVal.obj [("length", JVal.int 19)])])
    ∧ (classify_endpoint (fun _ => .ok (JVal.obj [("length", JVal.int 20)]))
        (HttpAttempt.resp 200 "b") "t").2
      = .ok200 (JVal.obj [("classification", JVal.str "long"),
                          ("analysis", JVal.obj [("length", JVal.int 20)])]) :=
  ⟨(classify_endpoint_boundary (fun _ => .ok (JVal.obj [("length", JVal.int 19)]))
      200 "b" "t" [("length", JVal.int 19)] 19 (by omega) rfl rfl).1 (by omega),
   (classify_endpoint_boundary (fun _ => .ok (JVal.obj [("length", JVal.int 20)]))
      200 "b" "t" [("length", JVal.int 20)] 20 (by omega) rfl rfl).2 (by omega)⟩

/-- C9 — Implicit length default and `int()` failure: for a successful
analyze call with an object body, a missing `length` field is taken as 0, so
the classification is `"short"`; and when `int()` cannot convert the `length`
value, the handler re-raises that error instead of answering 502 "Analyze
service unavailable". -/
theorem classify_endpoint_length_default_and_int_error
    (loads : String → Except PyErr JVal) (status : Nat) (body text : String)
    (kvs : List (String × JVal)) (e : PyErr)
    (hs : 200 ≤ status ∧ status < 300)
    (hb : loads body = .ok (JVal.obj kvs)) :
    (kvs.lookup "length" = Option.none →
      (classify_endpoint loads (HttpAttempt.resp status body) text).2
        = .ok200 (JVal.obj [("classification", JVal.str "short"), ("analysis", JVal.obj kvs)]))
    ∧ (pyInt ((kvs.lookup "length").getD (JVal.int 0)) = .error e →
      (classify_endpoint loads (HttpAttempt.resp status body) text).2 = .uncaught e
      ∧ ∀ st d, (classify_endpoint loads (HttpAttempt.resp status body) text).2
          ≠ .httpExc st d) := by
  constructor
  · intro hnone
    simp only [classify_endpoint, if_pos hs, hb, pyDictGetD, hnone, Option.getD]
    rfl
  · intro herr
    refine ⟨?_, fun st d hcontra => ?_⟩
    · simp [classify_endpoint, if_pos hs, hb, pyDictGetD, herr]
    · simp only [classify_endpoint, if_pos hs, hb, pyDictGetD, herr] at hcontra
      simp at hcontra

/-- Witness for C9: a body with no `length` field yields `"short"`, and a
body with `length: "abc"` ends in the uncaught `ValueError` from `int()`. -/
theorem classify_endpoint_length_default_and_int_error_witness :
    (classify_endpoint (fun _ => .ok (JVal.obj [("other", JVal.int 3)]))
        (HttpAttempt.resp 200 "b") "t").2
      = .ok200 (JVal.obj [("classification", JVal.str "short"),
                          ("analysis", JVal.obj [("other", JVal.int 3)])])
    ∧ (classify_endpoint (fun _ => .ok (JVal.obj [("length", JVal.str "abc")]))
        (HttpAttempt.resp 200 "b") "t").2
      = .uncaught (PyErr.valueError "invalid literal for int with base 10") :=
  ⟨(classify_endpoint_length_default_and_int_error
      (fun _ => .ok (JVal.obj [("other", JVal.int 3)])) 200 "b" "t"
      [("other", JVal.int 3)] (PyErr.valueError "invalid literal for int with base 10")
      (by omega) rfl).1 rfl,
   ((classify_endpoint_length_default_and_int_error
      (fun _ => .ok (JVal.obj [("length", JVal.str "abc")])) 200 "b" "t"
      [("length", JVal.str "abc")] (PyErr.valueError "invalid literal for int with base 10")
      (by omega) rfl).2 rfl).1⟩

/-- C1 — Context round-trip: for every valid trace context active in the
gateway when `publish_to_rabbitmq` runs (nonzero, in-range trace and span
ids, as every recording span has), injecting it into the carrier used as the
message headers, delivering those headers the way pika does (string keys,
UTF-8 byte values), normalizing them with `_normalize_headers` and extracting
with `extract` recovers the context exactly, and the consumer span started
with that parent has the trace id of the injected context. -/
theorem context_roundtrip (c : SpanContext) (freshTraceId freshSpanId : Nat)
    (h1 : 0 < c.traceId) (h2 : c.traceId < 2 ^ 128)
    (h3 : 0 < c.spanId) (h4 : c.spanId < 2 ^ 64) (h5 : c.flags < 2 ^ 8) :
    ∃ m, _normalize_headers
          (some ((inject (some c)).map fun kv => (PyVal.str kv.1, PyVal.bytes (utf8Encode kv.2))))
        = .ok m
      ∧ extract m = some c
      ∧ (start_span_with_parent (extract m) freshTraceId freshSpanId).traceId = c.traceId := by
  have hinj : inject (some c) = [("traceparent", traceparentString c)] := by
    simp only [inject]
    rw [if_pos ⟨Nat.pos_iff_ne_zero.mp h1, Nat.pos_iff_ne_zero.mp h3⟩]
  have hval : utf8DecodeIgnore (utf8Encode (traceparentString c)) = traceparentString c :=
    utf8DecodeIgnore_ascii _ (traceparentChars_ascii c)
  have hnorm : _normalize_headers
      (some ((inject (some c)).map fun kv => (PyVal.str kv.1, PyVal.bytes (utf8Encode kv.2))))
      = .ok [("traceparent", traceparentString c)] := by
    rw [hinj]
    show _normalize_headers
        (some [(PyVal.str "traceparent", PyVal.bytes (utf8Encode (traceparentString c)))]) = _
    calc _normalize_headers
          (some [(PyVal.str "traceparent", PyVal.bytes (utf8Encode (traceparentString c)))])
        = .ok [("traceparent", utf8DecodeIgnore (utf8Encode (traceparentString c)))] := rfl
      _ = .ok [("traceparent", traceparentString c)] := by rw [hval]
  have hext : extract [("traceparent", traceparentString c)] = some c := by
    have hl : extract [("traceparent", traceparentString c)]
        = parseTraceparent (traceparentString c) := rfl
    rw [hl]
    exact parseTraceparent_roundtrip c h1 h2 h3 h4 h5
  exact ⟨[("traceparent", traceparentString c)], hnorm, hext, by rw [hext]; rfl⟩

/-- Witness for C1: the context with trace id 1, span id 2, flags 1
round-trips through the message headers, and the consumer span started from
the extracted parent carries trace id 1. -/
theorem context_roundtrip_witness :
    ((0:Nat) < 1 ∧ (1:Nat) < 2 ^ 128) ∧ ((0:Nat) < 2 ∧ (2:Nat) < 2 ^ 64) ∧ (1:Nat) < 2 ^ 8
    ∧ ∃ m, _normalize_headers
          (some ((inject (some ⟨1, 2, 1⟩)).map fun kv => (PyVal.str kv.1, PyVal.bytes (utf8Encode kv.2))))
        = .ok m
      ∧ extract m = some ⟨1, 2, 1⟩
      ∧ (start_span_with_parent (extract m) 7 8).traceId = 1 :=
  ⟨⟨by norm_num, by norm_num⟩, ⟨by norm_num, by norm_num⟩, by norm_num,
   context_roundtrip ⟨1, 2, 1⟩ 7 8 (by norm_num) (by norm_num) (by norm_num)
     (by norm_num) (by norm_num)⟩

/-- C8 — Stream behaviour: the `chat-stream` generator emits exactly the five
chunks `chunk-0\n` through `chunk-4\n` in order, each followed by a 0.5
second sleep (in particular consecutive chunks are separated by the 0.5
delay), and terminates after the fifth chunk. -/
theorem stream_generator_shape :
    stream_generator
      = [StreamEvent.chunk "chunk-0\n", StreamEvent.sleep (1 / 2),
         StreamEvent.chunk "chunk-1\n", StreamEvent.sleep (1 / 2),
         StreamEvent.chunk "chunk-2\n", StreamEvent.sleep (1 / 2),
         StreamEvent.chunk "chunk-3\n", StreamEvent.sleep (1 / 2),
         StreamEvent.chunk "chunk-4\n", StreamEvent.sleep (1 / 2)] := by
  rfl

end PocOtel
